import Mathlib

/-!
Verification of the context-retrieval and query-routing layer of the
TAO-SDLC-Automation chat assistant, a shallow embedding of
src/backend/app/services/rag_chat_service.py (class RAGChatService).

Python strings are modelled as Lean String (sequences of code points),
Python dicts whose shapes are fixed by the source are modelled as
structures, Python None-able values as Option, exceptions as
Except String, and SQLAlchemy sessions as a record of lookup functions
that may themselves throw.
-/

set_option maxHeartbeats 1000000

namespace SDLC

/-- Char-level test that the first list is an initial segment of the second. -/
def charsHavePfx : List Char → List Char → Bool
  | [], _ => true
  | _ :: _, [] => false
  | a :: as, b :: bs => a == b && charsHavePfx as bs

/-- Char-level test that `sub` occurs contiguously somewhere in the list. -/
def charsHaveSub (sub : List Char) : List Char → Bool
  | [] => charsHavePfx sub []
  | c :: rest => charsHavePfx sub (c :: rest) || charsHaveSub sub rest

/-- Python `sub in s` membership test on strings (contiguous substring). -/
def strContains (s sub : String) : Bool := charsHaveSub sub.data s.data

/-- Python `s.lower()` (the queries handled by the service are ASCII). -/
def pyLower (s : String) : String := String.mk (s.data.map Char.toLower)

/-- Splits a char list at every char satisfying `p`, keeping empty pieces. -/
def splitCharsAux (p : Char → Bool) : List Char → List Char → List (List Char)
  | [], acc => [acc.reverse]
  | c :: rest, acc =>
    if p c then acc.reverse :: splitCharsAux p rest []
    else splitCharsAux p rest (c :: acc)

/-- Python `s.split()` with no argument: split on whitespace, dropping empty pieces. -/
def pySplit (s : String) : List String :=
  ((splitCharsAux Char.isWhitespace s.data []).map String.mk).filter (fun t => t ≠ "")

/-- Python string slicing `s[:n]`, counted in code points. -/
def pySlice (s : String) (n : Nat) : String := String.mk (s.data.take n)

/-- Python truthiness of an optional string (None and the empty string are falsy). -/
def optStrTruthy : Option String → Bool
  | none => false
  | some s => s ≠ ""

/-- Python truthiness of an optional integer (None and 0 are falsy). -/
def optNatTruthy : Option Nat → Bool
  | none => false
  | some n => n ≠ 0

/-- Interpolating an optional string into an f-string: Python prints None as "None". -/
def optRepr : Option String → String
  | none => "None"
  | some s => s

/-- One entry of the conversation history: `{role, content}`. -/
structure ConvTurn where
  role : String
  content : String
  deriving DecidableEq, Repr

/-- Acknowledgement phrases tested by `_detect_query_intent` (line 102). -/
def ackPhrases : List String := ["yes", "sure", "ok", "okay", "tell me more", "continue", "go ahead"]

/-- Phase references tested by the short-follow-up rule (line 107). -/
def phaseRefs : List String := ["phase 2", "phase 3", "phase 4", "phase 5", "phase 6"]

/-- Approval keywords of the first dashboard rule (line 112). -/
def approvalWords : List String := ["approval", "pending", "waiting", "need to approve", "approvals are pending"]

/-- The scope-specific keyword rules: the tail of `RAGChatService._detect_query_intent`
(rag_chat_service.py lines 110-136), applied to the lowered query text. -/
def scope_intent (query_lower context_type : String) : String :=
  if context_type = "dashboard" then
    if approvalWords.any (fun w => strContains query_lower w) then "approval_query"
    else if ["how many", "count", "list", "all projects"].any (fun w => strContains query_lower w) then "project_list"
    else if (["status", "progress"].any (fun w => strContains query_lower w)) && !(strContains query_lower "phase") then "project_status"
    else if ["create", "start", "new project", "how do i create"].any (fun w => strContains query_lower w) then "project_creation"
    else "dashboard_general"
  else
    if ["next step", "what should", "how to", "guide"].any (fun w => strContains query_lower w) then "phase_guidance"
    else if ["requirement", "feature", "user story"].any (fun w => strContains query_lower w) then "requirement_info"
    else if ["risk", "issue", "problem"].any (fun w => strContains query_lower w) then "risk_analysis"
    else if ["stakeholder", "approval", "who"].any (fun w => strContains query_lower w) then "stakeholder_info"
    else if ["status", "progress", "complete"].any (fun w => strContains query_lower w) then "project_status"
    else "project_general"

/-- Embeds `RAGChatService._detect_query_intent` (rag_chat_service.py lines 89-136).
The history block (lines 100-108) fires only on a non-empty history; otherwise
the scope rules decide. -/
def detect_query_intent (query context_type : String) (conversation_history : List ConvTurn) : String :=
  if conversation_history.length > 0 then
    if ackPhrases.any (fun w => strContains (pyLower query) w) then "follow_up"
    else if (phaseRefs.any (fun w => strContains (pyLower query) w)) ∧ (pySplit (pyLower query)).length ≤ 5 then "follow_up"
    else scope_intent (pyLower query) context_type
  else scope_intent (pyLower query) context_type

theorem scope_intent_ne_follow_up (ql ct : String) : scope_intent ql ct ≠ "follow_up" := by
  unfold scope_intent
  split_ifs <;> decide

/-- Claim C7: for every query and scope, when the conversation history is empty the
intent classifier never returns the follow-up intent. -/
theorem c7_no_follow_up_on_empty_history (query context_type : String) :
    detect_query_intent query context_type [] ≠ "follow_up" := by
  unfold detect_query_intent
  rw [if_neg (by decide : ¬(([] : List ConvTurn).length > 0))]
  exact scope_intent_ne_follow_up _ _

/-- Claim C10 (implicit): acknowledgement detection is substring containment, not
whole-token matching - for any non-empty history and either scope, a query whose
lowered text contains "ok", "yes" or "sure" anywhere (even inside a longer word)
is classified as a follow-up before any scope-specific rule is tried. -/
theorem c10_ack_substring_follow_up (query context_type : String) (history : List ConvTurn)
    (hne : history ≠ [])
    (hsub : strContains (pyLower query) "ok" = true ∨ strContains (pyLower query) "yes" = true ∨
      strContains (pyLower query) "sure" = true) :
    detect_query_intent query context_type history = "follow_up" := by
  have hack : (ackPhrases.any fun w => strContains (pyLower query) w) = true := by
    simp only [ackPhrases, List.any_cons, List.any_nil, Bool.or_eq_true]
    rcases hsub with h | h | h <;> simp [h]
  unfold detect_query_intent
  rw [if_pos (List.length_pos.mpr hne), if_pos hack]

/-- Witness for C10: "Look at the backlog" contains "ok" inside "look", so with one
prior turn it is classified follow_up even in project scope. -/
theorem c10_witness :
    strContains (pyLower "Look at the backlog") "ok" = true ∧
    detect_query_intent "Look at the backlog" "project"
      [⟨"user", "how do I create a project?"⟩] = "follow_up" :=
  ⟨by decide,
   c10_ack_substring_follow_up "Look at the backlog" "project"
     [⟨"user", "how do I create a project?"⟩]
     (List.cons_ne_nil _ _) (Or.inl (by decide))⟩

/-- Counterexample to C2 as stated: in dashboard scope with a non-empty history, the
query "yes, what approvals are pending?" contains the approval keywords "approval"
and "pending", yet the follow-up rule fires first and the classifier does not
return approval_query. -/
theorem c2_follow_up_overrides_approval :
    (approvalWords.any fun w => strContains (pyLower "yes, what approvals are pending?") w) = true ∧
    detect_query_intent "yes, what approvals are pending?" "dashboard"
      [⟨"user", "how do I create a project?"⟩] = "follow_up" ∧
    detect_query_intent "yes, what approvals are pending?" "dashboard"
      [⟨"user", "how do I create a project?"⟩] ≠ "approval_query" := by
  refine ⟨by decide, by decide, by decide⟩

/-- Claim C2 (amended): for every query containing an approval-related keyword in
dashboard scope, classify returns approval_query, provided the follow-up rule does
not fire first - that is, the history is empty, or the query contains no
acknowledgement phrase and is not a five-token-or-shorter phase reference. -/
theorem c2_amended_approval_intent (query : String) (history : List ConvTurn)
    (happ : (approvalWords.any fun w => strContains (pyLower query) w) = true)
    (hfu : history = [] ∨
      ((ackPhrases.any fun w => strContains (pyLower query) w) = false ∧
       ¬((phaseRefs.any fun w => strContains (pyLower query) w) ∧ (pySplit (pyLower query)).length ≤ 5))) :
    detect_query_intent query "dashboard" history = "approval_query" := by
  have hscope : scope_intent (pyLower query) "dashboard" = "approval_query" := by
    unfold scope_intent
    rw [if_pos rfl, if_pos happ]
  rcases hfu with rfl | ⟨hack, hphase⟩
  · unfold detect_query_intent
    rw [if_neg (by decide : ¬(([] : List ConvTurn).length > 0))]
    exact hscope
  · unfold detect_query_intent
    by_cases hl : history.length > 0
    · rw [if_pos hl, if_neg (by simp [hack]), if_neg hphase]
      exact hscope
    · rw [if_neg hl]
      exact hscope

/-- Witness for the amended C2: "what is pending?" carries an approval keyword, no
acknowledgement phrase and no phase reference, and is classified approval_query
even with a prior turn in the history. -/
theorem c2_amended_witness :
    (approvalWords.any fun w => strContains (pyLower "what is pending?") w) = true ∧
    detect_query_intent "what is pending?" "dashboard"
      [⟨"user", "how do I create a project?"⟩] = "approval_query" :=
  ⟨by decide,
   c2_amended_approval_intent "what is pending?" [⟨"user", "how do I create a project?"⟩]
     (by decide) (Or.inr ⟨by decide, by decide⟩)⟩

/-! ## Artifact Store data model (app/models.py, as consumed by the chat service) -/

/-- One risk entry inside a phase data blob (fields read at lines 701-705). -/
structure Risk where
  risk : Option String
  severity : Option String
  mitigation : Option String
  deriving DecidableEq, Repr

/-- One stakeholder entry inside a phase data blob (fields read at lines 731-733). -/
structure Stakeholder where
  role : Option String
  name : Option String
  status : Option String
  deriving DecidableEq, Repr

/-- The untyped JSON `data` blob of a phase, restricted to the keys the chat
service reads; a missing key models an absent dict entry. -/
structure PhaseData where
  risks : Option (List Risk)
  stakeholders : Option (List Stakeholder)
  deriving DecidableEq, Repr

/-- The empty dict `{}`. -/
def PhaseData.empty : PhaseData := ⟨none, none⟩

/-- A stored `models.Project` row as read by the service. -/
structure Project where
  id : Nat
  name : String
  description : Option String
  status : String
  created_at : String
  deriving DecidableEq, Repr

/-- A stored `models.Phase` row as read by the service (`data` may be SQL NULL). -/
structure Phase where
  id : Nat
  project_id : Nat
  phase_number : Nat
  phase_name : String
  status : String
  data : Option PhaseData
  deriving DecidableEq, Repr

/-- The SQLAlchemy session, reduced to the lookups the chat service issues.
Each lookup may itself throw, modelled by `Except`. -/
structure Db where
  all_projects : Except String (List Project)
  find_project : Nat → Except String (Option Project)
  phases_of_project : Nat → Except String (List Phase)
  find_phase : Nat → Except String (Option Phase)
  count_phase_status : String → Except String Nat

/-! ## Context payloads built by the two SQL-context assemblers -/

/-- One entry of `context["projects"]` built at lines 242-250. -/
structure ProjSummary where
  id : Nat
  name : String
  description : Option String
  status : String
  total_phases : Nat
  completed_phases : Nat
  current_phase : Option String
  deriving DecidableEq, Repr

/-- Embeds `context["statistics"]` built at lines 258-262. -/
structure Stats where
  active_projects : Nat
  completed_projects : Nat
  pending_approvals : Nat
  deriving DecidableEq, Repr

/-- The dict returned by `_get_dashboard_sql_context`: either the full context or
the except-branch dict `{"error": e, "total_projects": 0, "projects": []}`. -/
inductive DashboardSqlContext
  | err (msg : String)
  | ok (total_projects : Nat) (projects : List ProjSummary) (statistics : Stats)
  deriving DecidableEq, Repr

/-- Embeds `sql_context.get("total_projects", 0)`. -/
def DashboardSqlContext.totalProjects : DashboardSqlContext → Nat
  | .err _ => 0
  | .ok t _ _ => t

/-- Embeds `sql_context.get("projects", [])`. -/
def DashboardSqlContext.projectsList : DashboardSqlContext → List ProjSummary
  | .err _ => []
  | .ok _ ps _ => ps

/-- Embeds `sql_context.get("statistics", {}).get("active_projects", 0)`. -/
def DashboardSqlContext.activeProjects : DashboardSqlContext → Nat
  | .err _ => 0
  | .ok _ _ st => st.active_projects

/-- Embeds `sql_context.get("statistics", {}).get("completed_projects", 0)`. -/
def DashboardSqlContext.completedProjects : DashboardSqlContext → Nat
  | .err _ => 0
  | .ok _ _ st => st.completed_projects

/-- Embeds `sql_context.get("statistics", {}).get("pending_approvals", 0)`. -/
def DashboardSqlContext.pendingApprovals : DashboardSqlContext → Nat
  | .err _ => 0
  | .ok _ _ st => st.pending_approvals

/-- Embeds `context["project"]` built at lines 294-300. -/
structure ProjectInfo where
  id : Nat
  name : String
  description : Option String
  status : String
  created_at : String
  deriving DecidableEq, Repr

/-- A phase dict as placed in `context["phases"]` / `context["current_phase"]`
(lines 301-317); `data` already has the `or {}` default applied. -/
structure PhaseCtx where
  id : Nat
  number : Nat
  name : String
  status : String
  data : PhaseData
  deriving DecidableEq, Repr

/-- Embeds `context["progress"]` built at lines 318-323. -/
structure ProgressInfo where
  total_phases : Nat
  completed : Nat
  in_progress : Nat
  pending : Nat
  deriving DecidableEq, Repr

/-- The dict returned by `_get_project_sql_context`: either the full context, or an
error dict `{"error": msg}` (from the not-found return at line 281 or the except
branch at line 328). In the full context the `current_phase` key is always
present but its value may be Python `None`. -/
inductive ProjectSqlContext
  | err (msg : String)
  | ok (project : ProjectInfo) (phases : List PhaseCtx) (current_phase : Option PhaseCtx)
      (progress : ProgressInfo)
  deriving DecidableEq, Repr

def mkProjectInfo (p : Project) : ProjectInfo :=
  { id := p.id, name := p.name, description := p.description, status := p.status,
    created_at := p.created_at }

def mkPhaseCtx (p : Phase) : PhaseCtx :=
  { id := p.id, number := p.phase_number, name := p.phase_name, status := p.status,
    data := p.data.getD PhaseData.empty }

def mkProgress (phases : List Phase) : ProgressInfo :=
  { total_phases := phases.length,
    completed := (phases.filter (fun p => p.status = "completed")).length,
    in_progress := (phases.filter (fun p => p.status = "in_progress")).length,
    pending := (phases.filter (fun p => p.status = "pending")).length }

/-- Embeds `db.query(Project).filter(Project.id == project_id).first()`: a SQL filter
against a Python None id matches no row. -/
def project_row_lookup (db : Db) : Option Nat → Except String (Option Project)
  | none => .ok none
  | some pid => db.find_project pid

/-- Embeds `db.query(Phase).filter(Phase.project_id == project_id).order_by(...).all()`. -/
def phase_rows_lookup (db : Db) : Option Nat → Except String (List Phase)
  | none => .ok []
  | some pid => db.phases_of_project pid

/-- Lines 287-291: `if phase_id:` is Python truthiness, so a phase id of None or 0
is never looked up and `current_phase` stays None. -/
def current_phase_lookup (db : Db) : Option Nat → Except String (Option Phase)
  | none => .ok none
  | some pid => if pid ≠ 0 then db.find_phase pid else .ok none

/-- The body of the `try` block of `RAGChatService._get_project_sql_context`
(lines 275-326). -/
def get_project_sql_context_try (db : Db) (project_id phase_id : Option Nat) :
    Except String ProjectSqlContext :=
  match project_row_lookup db project_id with
  | .error e => .error e
  | .ok none => .ok (.err "Project not found")
  | .ok (some project) =>
    match phase_rows_lookup db project_id with
    | .error e => .error e
    | .ok phases =>
      match current_phase_lookup db phase_id with
      | .error e => .error e
      | .ok current_phase =>
        .ok (.ok (mkProjectInfo project) (phases.map mkPhaseCtx)
          (current_phase.map mkPhaseCtx) (mkProgress phases))

/-- Embeds `RAGChatService._get_project_sql_context` (lines 268-328): the `except` clause
turns any thrown error into the `{"error": str(e)}` dict, so the function as a
whole is total. -/
def get_project_sql_context (db : Db) (project_id phase_id : Option Nat) :
    ProjectSqlContext :=
  match get_project_sql_context_try db project_id phase_id with
  | .ok c => c
  | .error e => .err e

/-- The per-project body of the loop at lines 237-250 of
`_get_dashboard_sql_context`. -/
def dashboard_project_summary (db : Db) (project : Project) : Except String ProjSummary :=
  match db.phases_of_project project.id with
  | .error e => .error e
  | .ok phases => .ok
      { id := project.id, name := project.name, description := project.description,
        status := project.status,
        total_phases := phases.length,
        completed_phases := (phases.filter (fun p => p.status = "completed")).length,
        current_phase :=
          (phases.find? (fun p => p.status = "in_progress")).map (fun p => p.phase_name) }

/-- The body of the `try` block of `RAGChatService._get_dashboard_sql_context`
(lines 228-264). -/
def get_dashboard_sql_context_try (db : Db) : Except String DashboardSqlContext :=
  match db.all_projects with
  | .error e => .error e
  | .ok projects =>
    match projects.mapM (dashboard_project_summary db) with
    | .error e => .error e
    | .ok summaries =>
      match db.count_phase_status "pending_approval" with
      | .error e => .error e
      | .ok pending_approval_count =>
        .ok (.ok projects.length summaries
          { active_projects := (projects.filter (fun p => p.status = "active")).length,
            completed_projects := (projects.filter (fun p => p.status = "completed")).length,
            pending_approvals := pending_approval_count })

/-- Embeds `RAGChatService._get_dashboard_sql_context` (lines 226-266): the `except`
clause returns `{"error": str(e), "total_projects": 0, "projects": []}`. -/
def get_dashboard_sql_context (db : Db) : DashboardSqlContext :=
  match get_dashboard_sql_context_try db with
  | .ok c => c
  | .error e => .err e

/-- Tests whether a project context carries the `error` marker field. -/
def ProjectSqlContext.hasErrorMarker : ProjectSqlContext → Bool
  | .err _ => true
  | .ok _ _ _ _ => false

/-- Claim C6: for every project id that does not resolve to a stored project, and
likewise whenever the underlying record lookup itself throws, structured-fact
retrieval returns a payload carrying the error marker field; it never raises
(the function is total by construction, the `except` clause catching every
thrown lookup error). -/
theorem c6_unknown_project_error_marker (db : Db) (pid : Nat) (ph : Option Nat)
    (h : db.find_project pid = .ok none ∨ ∃ e, db.find_project pid = .error e) :
    ∃ msg, get_project_sql_context db (some pid) ph = .err msg := by
  rcases h with h | ⟨e, h⟩
  · exact ⟨"Project not found", by
      unfold get_project_sql_context get_project_sql_context_try
      simp only [project_row_lookup, h]⟩
  · exact ⟨e, by
      unfold get_project_sql_context get_project_sql_context_try
      simp only [project_row_lookup, h]⟩

/-- A database holding no projects at all, every lookup succeeding. -/
def dbEmpty : Db :=
  { all_projects := .ok []
    find_project := fun _ => .ok none
    phases_of_project := fun _ => .ok []
    find_phase := fun _ => .ok none
    count_phase_status := fun _ => .ok 0 }

/-- Witness for C6: looking up project 42 in an empty store yields the
error-marked payload. -/
theorem c6_witness :
    ∃ msg, get_project_sql_context dbEmpty (some 42) none = .err msg :=
  c6_unknown_project_error_marker dbEmpty 42 none (Or.inl rfl)

/-! ## Response generation strategies (the targets of the Response Router) -/

/-- The response dict every strategy returns:
`{response, confidence_score, sources, context_type}`. -/
structure ChatResponse where
  response : String
  confidence_score : Nat
  sources : List String
  context_type : String
  deriving DecidableEq, Repr

/-- The message of the AttributeError Python raises when `.get` is called on None. -/
def attr_error_get : String :=
  "AttributeError: \x27NoneType\x27 object has no attribute \x27get\x27"

/-- Embeds `sql_context.get("current_phase")` (default None), as read by
`_generate_phase_guidance`. -/
def ProjectSqlContext.currentPhaseOrNone : ProjectSqlContext → Option PhaseCtx
  | .err _ => none
  | .ok _ _ cp _ => cp

/-- Embeds `sql_context.get("current_phase", {})` followed by `.get("data", {})` (lines
694-695 and 725-726): on the error dict the key is absent and the default `{}`
applies, but on the full context the key is present possibly holding Python
None, and attribute access on None raises. -/
def current_phase_data_get : ProjectSqlContext → Except String PhaseData
  | .err _ => .ok PhaseData.empty
  | .ok _ _ none _ => .error attr_error_get
  | .ok _ _ (some cp) _ => .ok cp.data

/-- Embeds `sql_context.get("project", {}).get("name", default)`. -/
def ProjectSqlContext.projectNameOr (default : String) : ProjectSqlContext → String
  | .err _ => default
  | .ok p _ _ _ => p.name

/-- Embeds `sql_context.get("progress", {}).get("total_phases", 6)`. -/
def ProjectSqlContext.progressTotal : ProjectSqlContext → Nat
  | .err _ => 6
  | .ok _ _ _ pr => pr.total_phases

/-- Embeds `sql_context.get("progress", {}).get("completed", 0)`. -/
def ProjectSqlContext.progressCompleted : ProjectSqlContext → Nat
  | .err _ => 0
  | .ok _ _ _ pr => pr.completed

/-- Embeds `sql_context.get("progress", {}).get("in_progress", 0)`. -/
def ProjectSqlContext.progressInProgress : ProjectSqlContext → Nat
  | .err _ => 0
  | .ok _ _ _ pr => pr.in_progress

/-- Embeds `sql_context.get("progress", {}).get("pending", 0)`. -/
def ProjectSqlContext.progressPending : ProjectSqlContext → Nat
  | .err _ => 0
  | .ok _ _ _ pr => pr.pending

/-- One line of the default project-list rendering (lines 352-353). -/
def project_list_line (p : ProjSummary) : String :=
  (if p.status = "active" then "🟢" else if p.status = "completed" then "🔵" else "⚪")
    ++ " **" ++ p.name ++ "** - " ++ toString p.completed_phases ++ "/"
    ++ toString p.total_phases ++ " phases completed\n"

/-- Embeds `RAGChatService._generate_project_list_response` (lines 330-363). -/
def generate_project_list_response (sql_context : DashboardSqlContext) (query : String) :
    ChatResponse :=
  { response :=
      if strContains (pyLower query) "phase" && strContains (pyLower query) "requirements" then
        let req_projects := sql_context.projectsList.filter (fun p =>
          optStrTruthy p.current_phase && strContains (p.current_phase.getD "") "Requirements")
        "There are **" ++ toString req_projects.length
          ++ " projects** currently in the \x27Requirements & Business Analysis\x27 phase:\n\n"
          ++ String.join (req_projects.map (fun p =>
              "- **" ++ p.name ++ "**: " ++ optRepr p.description ++ "\n"))
      else
        "You have **" ++ toString sql_context.totalProjects
          ++ " total projects** in your SDLC platform:\n\n"
          ++ String.join ((sql_context.projectsList.take 5).map project_list_line)
          ++ (if sql_context.totalProjects > 5 then
                "\n... and " ++ toString (sql_context.totalProjects - 5) ++ " more projects."
              else ""),
    confidence_score := 95,
    sources := ["SQL Database"],
    context_type := "dashboard" }

/-- Embeds `RAGChatService._generate_project_status_response` (lines 365-389). -/
def generate_project_status_response (sql_context : DashboardSqlContext) (query : String) :
    ChatResponse :=
  { response :=
      "📊 **Project Status Overview**\n\n**Active Projects**: "
        ++ toString sql_context.activeProjects
        ++ "\n**Completed Projects**: " ++ toString sql_context.completedProjects
        ++ "\n**Pending Approvals**: " ++ toString sql_context.pendingApprovals
        ++ "\n\nYour projects are progressing well! "
        ++ (if sql_context.pendingApprovals > 0 then
              "You have " ++ toString sql_context.pendingApprovals
                ++ " approvals waiting for review."
            else ""),
    confidence_score := 90,
    sources := ["SQL Database"],
    context_type := "dashboard" }

/-- The fixed guidance text of `_generate_project_creation_guidance` (lines 393-417). -/
def creation_guidance_text : String :=
  "🚀 **Creating a New Project**\n\nTo create a new project, follow these steps:\n\n1. Click the **\"+ New Project\"** button in the top right\n2. Fill in the project details:\n   - Project Name\n   - Description\n   - Select team members\n3. Click **\"Create Project\"**\n\nThe system will automatically:\n- Create all 6 SDLC phases\n- Set up approval workflows\n- Initialize AI assistance\n\n**The 6 phases are**:\n1. Requirements & Business Analysis\n2. Planning & Product Backlog\n3. Architecture & High-Level Design\n4. Detailed Design & Specification\n5. Development, Testing & Code Review\n6. Deployment, Release & Operations\n\nWould you like me to guide you through any specific phase?"

/-- Embeds `RAGChatService._generate_project_creation_guidance` (lines 391-424). -/
def generate_project_creation_guidance : ChatResponse :=
  { response := creation_guidance_text,
    confidence_score := 100,
    sources := ["SDLC Knowledge Base"],
    context_type := "dashboard" }

/-- The no-pending branch text of `_generate_approval_response` (lines 437-441). -/
def no_pending_approvals_text : String :=
  "✅ **No Pending Approvals**\n\nGreat news! You don\x27t have any approvals waiting for your review at the moment.\n\nAll project phases are either in progress or already approved."

/-- The instructions appended after the pending-submissions list (lines 454-466). -/
def approval_footer_text : String :=
  "\n**To review and approve:**\n1. Click on **\"Approval Center\"** in the sidebar\n2. Review the phase submissions\n3. Click **\"Approve\"** or **\"Reject\"** with comments\n\n**What you can review:**\n- Requirements & Business Analysis (Phase 1)\n- Planning & Product Backlog (Phase 2)\n- Architecture & High-Level Design (Phase 3)\n- And other phase submissions\n\nWould you like me to help you navigate to the Approval Center?"

/-- Embeds `RAGChatService._generate_approval_response` (lines 426-473). -/
def generate_approval_response (sql_context : DashboardSqlContext) (query : String) :
    ChatResponse :=
  { response :=
      if sql_context.pendingApprovals = 0 then no_pending_approvals_text
      else
        "📋 **Pending Approvals**\n\nYou have **" ++ toString sql_context.pendingApprovals
          ++ " approval" ++ (if sql_context.pendingApprovals ≠ 1 then "s" else "")
          ++ "** waiting for your review.\n\n"
          ++ "**Pending submissions:**\n"
          ++ String.join (sql_context.projectsList.map (fun p => "- " ++ p.name ++ "\n"))
          ++ approval_footer_text,
    confidence_score := 95,
    sources := ["SQL Database"],
    context_type := "dashboard" }

/-- The Phase-2 guidance emitted by the follow-up handler (lines 497-526). -/
def phase2_follow_up_text : String :=
  "📊 **Phase 2: Planning & Product Backlog**\n\nAfter creating your project, Phase 2 involves:\n\n**Key Activities:**\n1. **Generate Epics** - High-level business features\n2. **Create User Stories** - Detailed requirements from user perspective\n3. **Resource Planning** - Calculate team capacity and sprints\n4. **Submit for Approval** - Send backlog for stakeholder review\n\n**How to work in Phase 2:**\n1. Go to your project page\n2. Navigate to **\"Phase 2: Planning & Product Backlog\"**\n3. Click **\"Generate Epics\"** button (AI will create them)\n4. Click **\"Generate User Stories\"** for each epic\n5. Review and edit as needed\n6. Click **\"Calculate Capacity\"** for resource planning\n7. Click **\"Submit Phase 2 for Approval\"**\n\n**AI Features:**\n- Auto-generates epics from Phase 1 requirements\n- Creates realistic user stories (2-10 per epic)\n- Estimates story points and complexity\n- Confidence scoring for quality assurance\n\nReady to start working on Phase 2?"

/-- Embeds `last_user_query`: scan the history in reverse for the last user turn and lower
its content; the empty string when there is none (lines 487-491). -/
def last_user_query (conversation_history : List ConvTurn) : String :=
  match conversation_history.reverse.find? (fun m => m.role = "user") with
  | some m => pyLower m.content
  | none => ""

/-- Embeds `RAGChatService._handle_follow_up` (lines 475-534). -/
def handle_follow_up (query : String) (conversation_history : List ConvTurn)
    (sql_context : DashboardSqlContext) (db : Db) : ChatResponse :=
  if conversation_history.length ≥ 2 ∧
      (strContains (last_user_query conversation_history) "create" ||
       strContains (last_user_query conversation_history) "new project") ∧
      (strContains (pyLower query) "phase 2" || strContains (pyLower query) "planning" ||
       strContains (pyLower query) "backlog") then
    { response := phase2_follow_up_text,
      confidence_score := 95,
      sources := ["SDLC Knowledge Base", "Context"],
      context_type := "dashboard" }
  else
    { response := "I\x27d be happy to help! Could you please provide more details about what you\x27d like to know?",
      confidence_score := 50,
      sources := ["Context"],
      context_type := "dashboard" }

/-- The phase guidance templates keyed by phase number (lines 555-647). -/
def phase_guidance_table : Nat → Option String
  | 1 => some "📋 **Phase 1: Requirements & Business Analysis**\n\n**Next Steps**:\n1. ✅ **Upload Documents**: Click \"Upload Documents\" to add requirement files (Excel, Word, Text)\n2. ✅ **Extract with AI**: Convert documents to Gherkin format\n3. ✅ **Review Requirements**: Expand each requirement to see scenarios\n4. ✅ **Generate PRD**: Click \"Generate with AI\" in the PRD section\n5. ✅ **Generate BRD**: Click \"Generate with AI\" in the BRD section\n6. ✅ **Analyze Risks**: Use \"Analyze Risks with AI\"\n7. ✅ **Add Stakeholders**: Select approvers from database\n8. ✅ **Submit for Approval**: Once all documents are ready\n\n**Tips**:\n- Be detailed in requirements for better AI conversion\n- Approve requirements before generating PRD/BRD\n- Export requirements as .feature files for testing"
  | 2 => some "📊 **Phase 2: Planning & Product Backlog**\n\n**Next Steps**:\n1. Convert requirements to Epics\n2. Break down Epics into User Stories\n3. Estimate story points\n4. Prioritize backlog\n5. Plan sprints\n6. Submit for approval\n\n**Tips**:\n- Use AI to generate user stories from requirements\n- Follow INVEST criteria for user stories\n- Consider dependencies between stories"
  | 3 => some "🏗️ **Phase 3: Architecture & High-Level Design**\n\n**Next Steps**:\n1. Define system architecture\n2. Create component diagrams\n3. Design data flow\n4. Plan infrastructure\n5. Document technical decisions\n6. Submit for approval\n\n**Tips**:\n- Consider scalability and performance\n- Document architectural decisions (ADRs)\n- Review with technical leads"
  | 4 => some "📐 **Phase 4: Detailed Design & Specification**\n\n**Next Steps**:\n1. Create detailed component designs\n2. Design database schema\n3. Define API contracts\n4. Write technical specifications\n5. Create sequence diagrams\n6. Submit for approval\n\n**Tips**:\n- Be specific about interfaces\n- Document edge cases\n- Include error handling"
  | 5 => some "💻 **Phase 5: Development, Testing & Code Review**\n\n**Next Steps**:\n1. Implement features\n2. Write unit tests\n3. Conduct code reviews\n4. Run integration tests\n5. Fix bugs and issues\n6. Submit for QA approval\n\n**Tips**:\n- Follow coding standards\n- Write tests first (TDD)\n- Review code thoroughly"
  | 6 => some "🚀 **Phase 6: Deployment, Release & Operations**\n\n**Next Steps**:\n1. Prepare deployment plan\n2. Set up CI/CD pipeline\n3. Deploy to staging\n4. Run smoke tests\n5. Deploy to production\n6. Monitor and support\n\n**Tips**:\n- Have rollback plan ready\n- Monitor metrics closely\n- Document deployment process"
  | _ => none

/-- Embeds `RAGChatService._generate_phase_guidance` (lines 536-656); `phase_id` is
accepted but the current phase is read from the SQL context. -/
def generate_phase_guidance (sql_context : ProjectSqlContext) (phase_id : Option Nat) :
    ChatResponse :=
  match sql_context.currentPhaseOrNone with
  | none =>
    { response := "I need to know which phase you\x27re in to provide guidance. Could you specify the phase?",
      confidence_score := 50,
      sources := [],
      context_type := "project" }
  | some current_phase =>
    { response := (phase_guidance_table current_phase.number).getD "Phase guidance not available.",
      confidence_score := 95,
      sources := ["SDLC Knowledge Base", "Project Data"],
      context_type := "project" }

/-- The numbered snippet lines of `_generate_requirement_info` (lines 668-669):
each snippet is cut to its first 200 characters and suffixed with an ellipsis. -/
def requirement_snippet_lines : Nat → List String → String
  | _, [] => ""
  | i, c :: rest =>
    toString i ++ ". " ++ pySlice c 200 ++ "...\n\n"
      ++ requirement_snippet_lines (i + 1) rest

/-- The no-requirements fallback text (lines 672-679). -/
def requirement_fallback_text : String :=
  "I don\x27t have specific requirement information yet. \n\nTo add requirements:\n1. Go to Phase 1: Requirements & Business Analysis\n2. Upload requirement documents or add manually\n3. Use \"Extract with AI\" to convert to Gherkin format\n\nOnce requirements are added, I\x27ll be able to search and answer questions about them!"

/-- Embeds `RAGChatService._generate_requirement_info` (lines 658-686). -/
def generate_requirement_info (sql_context : ProjectSqlContext)
    (vector_context : List String) (query : String) : ChatResponse :=
  { response :=
      if !vector_context.isEmpty then
        "Based on your project requirements:\n\n"
          ++ requirement_snippet_lines 1 (vector_context.take 3)
          ++ "\nWould you like more details about any specific requirement?"
      else requirement_fallback_text,
    confidence_score := if !vector_context.isEmpty then 85 else 70,
    sources := if !vector_context.isEmpty then ["Vector Database", "Project Data"]
               else ["SDLC Knowledge"],
    context_type := "project" }

/-- One risk block of `_generate_risk_analysis` (lines 700-705). -/
def risk_block (r : Risk) : String :=
  (if r.severity.getD "Medium" = "High" then "🔴"
   else if r.severity.getD "Medium" = "Medium" then "🟡" else "🟢")
    ++ " **" ++ (r.risk.getD "Unknown risk") ++ "**\n"
    ++ "   - Severity: " ++ (r.severity.getD "Medium") ++ "\n"
    ++ "   - Mitigation: " ++ (r.mitigation.getD "TBD") ++ "\n\n"

/-- The no-risks fallback text (lines 707-714). -/
def no_risks_text : String :=
  "No risks have been identified yet.\n\nTo analyze risks:\n1. Go to Phase 1: Requirements & Business Analysis\n2. Click \"Analyze Risks with AI\"\n3. Review and approve identified risks\n\nAI will analyze your requirements and suggest potential risks and mitigation strategies."

/-- Embeds `RAGChatService._generate_risk_analysis` (lines 688-721). The read of the
current phase data may raise an AttributeError (see `current_phase_data_get`),
which propagates out of the strategy. -/
def generate_risk_analysis (sql_context : ProjectSqlContext)
    (vector_context : List String) : Except String ChatResponse :=
  match current_phase_data_get sql_context with
  | .error e => .error e
  | .ok phase_data =>
    let risks := phase_data.risks.getD []
    .ok { response :=
            if !risks.isEmpty then
              "🚨 **Identified Risks**:\n\n" ++ String.join ((risks.take 5).map risk_block)
            else no_risks_text,
          confidence_score := if !risks.isEmpty then 90 else 75,
          sources := ["Project Data", "Risk Analysis"],
          context_type := "project" }

/-- One stakeholder line of `_generate_stakeholder_info` (lines 731-733). -/
def stakeholder_line (sh : Stakeholder) : String :=
  (if sh.status = some "approved" then "✅" else "⏳")
    ++ " **" ++ (sh.role.getD "Unknown") ++ "**: " ++ (sh.name.getD "Unknown") ++ "\n"

/-- The no-stakeholders fallback text (lines 735-742). -/
def no_stakeholders_text : String :=
  "No stakeholders have been added yet.\n\nTo add stakeholders:\n1. Go to Phase 1: Requirements & Business Analysis\n2. Click \"Select from Database\" or \"Add Custom Stakeholder\"\n3. Choose approvers for this phase\n\nStakeholders will be notified when you submit for approval."

/-- Embeds `RAGChatService._generate_stakeholder_info` (lines 723-749), with the same
unguarded read of the current phase data as the risk strategy. -/
def generate_stakeholder_info (sql_context : ProjectSqlContext) :
    Except String ChatResponse :=
  match current_phase_data_get sql_context with
  | .error e => .error e
  | .ok phase_data =>
    let stakeholders := phase_data.stakeholders.getD []
    .ok { response :=
            if !stakeholders.isEmpty then
              "👥 **Project Stakeholders**:\n\n" ++ String.join (stakeholders.map stakeholder_line)
            else no_stakeholders_text,
          confidence_score := if !stakeholders.isEmpty then 95 else 80,
          sources := ["Project Data"],
          context_type := "project" }

/-- Embeds `RAGChatService._generate_project_progress` (lines 751-785). The Python
percentage `int((completed / total) * 100)` uses float division truncated toward
zero; for the phase counts involved this is Nat floor division. -/
def generate_project_progress (sql_context : ProjectSqlContext) : ChatResponse :=
  let total := sql_context.progressTotal
  let completed := sql_context.progressCompleted
  let percentage := if total > 0 then completed * 100 / total else 0
  { response :=
      "📊 **Project Progress: " ++ sql_context.projectNameOr "Unknown"
        ++ "**\n\n**Overall Progress**: " ++ toString percentage ++ "% ("
        ++ toString completed ++ "/" ++ toString total
        ++ " phases completed)\n\n**Phase Status**:\n- ✅ Completed: " ++ toString completed
        ++ "\n- 🔄 In Progress: " ++ toString sql_context.progressInProgress
        ++ "\n- ⏳ Pending: " ++ toString sql_context.progressPending
        ++ "\n\n"
        ++ (if percentage < 30 then
              "🚀 You\x27re just getting started! Focus on completing Phase 1 first."
            else if percentage < 70 then "💪 Good progress! Keep the momentum going."
            else "🎉 Almost there! You\x27re in the final stretch."),
    confidence_score := 95,
    sources := ["Project Data"],
    context_type := "project" }

/-- The fixed dashboard fallback text (lines 796-810). -/
def dashboard_general_text : String :=
  "I\x27m here to help you manage your SDLC projects! \n\n**I can help you with**:\n- 📊 Project status and progress\n- 📋 Creating new projects\n- ✅ Checking approvals\n- 📈 Viewing statistics\n\n**Try asking**:\n- \"How many projects are there?\"\n- \"Show me active projects\"\n- \"How do I create a new project?\"\n- \"What approvals are pending?\"\n\nOr click on a project to get project-specific guidance!"

/-- Embeds `RAGChatService._generate_dashboard_general_response` (lines 787-817). -/
def generate_dashboard_general_response (query : String)
    (sql_context : DashboardSqlContext) (vector_context : List String) : ChatResponse :=
  { response := dashboard_general_text,
    confidence_score := 70,
    sources := ["General AI"],
    context_type := "dashboard" }

/-- Embeds `RAGChatService._generate_project_general_response` (lines 819-852). -/
def generate_project_general_response (query : String)
    (sql_context : ProjectSqlContext) (vector_context : List String) : ChatResponse :=
  { response :=
      "I\x27m here to help you with **" ++ sql_context.projectNameOr "this project"
        ++ "**!\n\n**I can help you with**:\n- 🎯 Phase guidance and next steps\n- 📋 Requirements and features\n- 🚨 Risk analysis\n- 👥 Stakeholder information\n- 📊 Project progress\n\n**Try asking**:\n- \"What should I do next?\"\n- \"Show me the requirements\"\n- \"What are the risks?\"\n- \"Who are the stakeholders?\"\n- \"What\x27s the project status?\"\n\nI\x27m learning about your project as you add more information!",
    confidence_score := 75,
    sources := ["General AI", "Project Context"],
    context_type := "project" }

/-! ## Vector store, handlers and the full pipeline -/

/-- One nearest-neighbour result of the Embedding Index: a dict whose `content`
field the handlers extract. -/
structure SearchHit where
  content : String
  deriving DecidableEq, Repr

/-- The `(query, response, intent, sources)` tuple recorded into the Embedding
Index by `process_chat_query` step 3 (lines 73-85), together with the scope it
is stored under. -/
structure StoredInteraction where
  project_id : Option Nat
  phase_id : Option Nat
  query : String
  response : String
  intent : String
  sources : List String
  search_text : String
  deriving DecidableEq, Repr

/-- The `EnhancedVectorStoreService` interface the chat service consumes; each
call may throw. -/
structure VectorStore where
  search_dashboard_context : String → Nat → Except String (List SearchHit)
  search_project_context : Option Nat → String → Option Nat → Nat → Except String (List SearchHit)
  store_chat_embedding : StoredInteraction → Except String Unit

/-- The service instance state set up in `__init__` (lines 25-33): the vector
store handle is None when its initialisation failed, and `use_real_ai` reflects
the presence of an OpenAI key. -/
structure RAGChatService where
  vector_store : Option VectorStore
  use_real_ai : Bool

/-- The dashboard semantic-search block of `_handle_dashboard_query`
(lines 151-160): skipped when the handle is None, and any search error is
caught and treated as no snippets. -/
def dashboard_vector_context (svc : RAGChatService) (query : String) : List String :=
  match svc.vector_store with
  | none => []
  | some vs =>
    match vs.search_dashboard_context query 5 with
    | .ok rs => rs.map (fun r => r.content)
    | .error _ => []

/-- The project semantic-search block of `_handle_project_query` (lines 195-206),
with the same guard and swallow-on-error behaviour. -/
def project_vector_context (svc : RAGChatService) (project_id : Option Nat)
    (query : String) (phase_id : Option Nat) : List String :=
  match svc.vector_store with
  | none => []
  | some vs =>
    match vs.search_project_context project_id query phase_id 5 with
    | .ok rs => rs.map (fun r => r.content)
    | .error _ => []

/-- Embeds `RAGChatService._handle_dashboard_query` (lines 138-178): every dashboard
strategy is total, so the handler always produces a response. -/
def handle_dashboard_query (svc : RAGChatService) (query intent : String)
    (conversation_history : List ConvTurn) (db : Db) : Except String ChatResponse :=
  let sql_context := get_dashboard_sql_context db
  let vector_context := dashboard_vector_context svc query
  if intent = "approval_query" then .ok (generate_approval_response sql_context query)
  else if intent = "project_list" then .ok (generate_project_list_response sql_context query)
  else if intent = "project_status" then .ok (generate_project_status_response sql_context query)
  else if intent = "project_creation" then .ok generate_project_creation_guidance
  else if intent = "follow_up" then .ok (handle_follow_up query conversation_history sql_context db)
  else .ok (generate_dashboard_general_response query sql_context vector_context)

/-- Embeds `RAGChatService._handle_project_query` (lines 180-224): the risk and
stakeholder strategies may raise, and the handler does not catch that. -/
def handle_project_query (svc : RAGChatService) (query intent : String)
    (project_id phase_id : Option Nat) (conversation_history : List ConvTurn)
    (db : Db) : Except String ChatResponse :=
  let sql_context := get_project_sql_context db project_id phase_id
  let vector_context := project_vector_context svc project_id query phase_id
  if intent = "phase_guidance" then .ok (generate_phase_guidance sql_context phase_id)
  else if intent = "requirement_info" then .ok (generate_requirement_info sql_context vector_context query)
  else if intent = "risk_analysis" then generate_risk_analysis sql_context vector_context
  else if intent = "stakeholder_info" then generate_stakeholder_info sql_context
  else if intent = "project_status" then .ok (generate_project_progress sql_context)
  else .ok (generate_project_general_response query sql_context vector_context)

/-- The chat-data dict and search text passed to `store_chat_embedding`
(lines 75-85). -/
def mkInteraction (project_id phase_id : Option Nat) (query : String)
    (response : ChatResponse) (intent : String) : StoredInteraction :=
  { project_id := project_id, phase_id := phase_id, query := query,
    response := response.response, intent := intent, sources := response.sources,
    search_text := "Q: " ++ query ++ "\nA: " ++ response.response }

/-- The message of the AttributeError raised when the store call is reached with
a None vector-store handle. -/
def attr_error_store : String :=
  "AttributeError: \x27NoneType\x27 object has no attribute \x27store_chat_embedding\x27"

/-- Step 3 of `process_chat_query` (lines 73-85): the store of the completed
exchange, guarded only by `if project_id and self.use_real_ai` and wrapped in no
try/except; with a None handle the attribute access itself raises. The returned
list collects the interactions written. -/
def record_interaction (svc : RAGChatService) (project_id phase_id : Option Nat)
    (query intent : String) (response : ChatResponse) :
    Except String (ChatResponse × List StoredInteraction) :=
  if optNatTruthy project_id && svc.use_real_ai then
    match svc.vector_store with
    | none => .error attr_error_store
    | some vs =>
      match vs.store_chat_embedding (mkInteraction project_id phase_id query response intent) with
      | .error e => .error e
      | .ok _ => .ok (response, [mkInteraction project_id phase_id query response intent])
  else .ok (response, [])

/-- Embeds `RAGChatService.process_chat_query` (lines 35-87): classify the intent
(over the history, defaulted to [] when absent), route to the scope handler,
then store the exchange. -/
def process_chat_query (svc : RAGChatService) (query context_type : String)
    (project_id phase_id : Option Nat) (conversation_history : Option (List ConvTurn))
    (db : Db) : Except String (ChatResponse × List StoredInteraction) :=
  match (if context_type = "dashboard" then
           handle_dashboard_query svc query
             (detect_query_intent query context_type (conversation_history.getD []))
             (conversation_history.getD []) db
         else
           handle_project_query svc query
             (detect_query_intent query context_type (conversation_history.getD []))
             project_id phase_id (conversation_history.getD []) db) with
  | .error e => .error e
  | .ok response =>
    record_interaction svc project_id phase_id query
      (detect_query_intent query context_type (conversation_history.getD [])) response

/-! ## Concrete fixtures -/

def projA : Project := ⟨1, "Alpha", some "First project", "active", "2024-01-01"⟩
def projB : Project := ⟨2, "Beta", some "Second project", "active", "2024-01-02"⟩
def projC : Project := ⟨3, "Gamma", some "Third project", "completed", "2024-01-03"⟩

/-- A store with three projects (two active, one completed), no phases, and no
phase in pending_approval status. -/
def db3 : Db :=
  { all_projects := .ok [projA, projB, projC]
    find_project := fun pid =>
      .ok (if pid = 1 then some projA else if pid = 2 then some projB
           else if pid = 3 then some projC else none)
    phases_of_project := fun _ => .ok []
    find_phase := fun _ => .ok none
    count_phase_status := fun _ => .ok 0 }

/-- A store with a single project and no phases. -/
def dbOne : Db :=
  { all_projects := .ok [projA]
    find_project := fun pid => .ok (if pid = 1 then some projA else none)
    phases_of_project := fun _ => .ok []
    find_phase := fun _ => .ok none
    count_phase_status := fun _ => .ok 0 }

/-- A vector store whose write always throws. -/
def raising_store : VectorStore :=
  { search_dashboard_context := fun _ _ => .ok []
    search_project_context := fun _ _ _ _ => .ok []
    store_chat_embedding := fun _ => .error "vector store write failed" }

/-- A vector store whose calls all succeed (searches find nothing). -/
def working_store : VectorStore :=
  { search_dashboard_context := fun _ _ => .ok []
    search_project_context := fun _ _ _ _ => .ok []
    store_chat_embedding := fun _ => .ok () }

/-- Projection of a pipeline outcome to its success value. -/
def exOk : Except String (ChatResponse × List StoredInteraction) →
    Option (ChatResponse × List StoredInteraction)
  | .ok v => some v
  | .error _ => none

/-! ## Claims C1, C3, C4, C5, C9 -/

/-- Claim C1 (code-bug evaluation): routed at intent risk_analysis in project
scope, with a context payload holding no current-phase record (no phase id was
supplied, so the `current_phase` key holds Python None) and an empty snippet
list, the pipeline raises an AttributeError instead of degrading to the
"no risks identified yet" branch with confidence 75 as the claim (and the
scenario in section 8 of the spec) requires. -/
theorem c1_risk_route_raises_on_missing_phase :
    process_chat_query ⟨none, false⟩ "what are the risks?" "project" (some 1) none
      (some []) dbOne = .error attr_error_get := by rfl

/-- The closed source vocabulary claimed for strategy `sources` sets. -/
def spec_source_vocab : List String :=
  ["SQL Database", "Vector Database", "SDLC Knowledge Base", "Project Data",
   "General AI", "Context"]

/-- Whether every source label of a response lies in the given vocabulary. -/
def sources_in (vocab : List String) (r : ChatResponse) : Bool :=
  r.sources.all (fun s => vocab.contains s)

/-- The same check through a strategy that may raise (vacuous on a raise). -/
def sources_in_except (vocab : List String) : Except String ChatResponse → Bool
  | .ok r => sources_in vocab r
  | .error _ => true

/-- Counterexample to C3 as stated: the risk-analysis strategy labels its
response with "Risk Analysis", which is not in the claimed closed vocabulary. -/
theorem c3_risk_sources_outside_vocab :
    (generate_risk_analysis (ProjectSqlContext.err "boom") []).map (fun r => r.sources)
        = .ok ["Project Data", "Risk Analysis"] ∧
    spec_source_vocab.contains "Risk Analysis" = false ∧
    sources_in_except spec_source_vocab
      (generate_risk_analysis (ProjectSqlContext.err "boom") []) = false :=
  ⟨rfl, rfl, rfl⟩

/-- The vocabulary actually used by the strategies: the claimed six labels plus
"SDLC Knowledge" (requirement fallback), "Risk Analysis" (risk strategy) and
"Project Context" (project general fallback). -/
def extended_source_vocab : List String :=
  spec_source_vocab ++ ["SDLC Knowledge", "Risk Analysis", "Project Context"]

/-- Claim C3 (amended): for every (scope, intent) pair, the sources set returned
by the response-generation strategy is a subset of the closed vocabulary
{"SQL Database", "Vector Database", "SDLC Knowledge Base", "SDLC Knowledge",
"Project Data", "Risk Analysis", "General AI", "Context", "Project Context"}. -/
theorem c3_amended_sources_vocabulary (dctx : DashboardSqlContext)
    (pctx : ProjectSqlContext) (vc : List String) (q : String)
    (hist : List ConvTurn) (db : Db) (ph : Option Nat) :
    sources_in extended_source_vocab (generate_approval_response dctx q) = true ∧
    sources_in extended_source_vocab (generate_project_list_response dctx q) = true ∧
    sources_in extended_source_vocab (generate_project_status_response dctx q) = true ∧
    sources_in extended_source_vocab generate_project_creation_guidance = true ∧
    sources_in extended_source_vocab (handle_follow_up q hist dctx db) = true ∧
    sources_in extended_source_vocab (generate_dashboard_general_response q dctx vc) = true ∧
    sources_in extended_source_vocab (generate_phase_guidance pctx ph) = true ∧
    sources_in extended_source_vocab (generate_requirement_info pctx vc q) = true ∧
    sources_in_except extended_source_vocab (generate_risk_analysis pctx vc) = true ∧
    sources_in_except extended_source_vocab (generate_stakeholder_info pctx) = true ∧
    sources_in extended_source_vocab (generate_project_progress pctx) = true ∧
    sources_in extended_source_vocab (generate_project_general_response q pctx vc) = true := by
  refine ⟨rfl, rfl, rfl, rfl, ?_, rfl, ?_, ?_, ?_, ?_, rfl, rfl⟩
  · unfold handle_follow_up
    split_ifs <;> rfl
  · unfold generate_phase_guidance
    cases pctx.currentPhaseOrNone <;> rfl
  · unfold generate_requirement_info
    cases vc <;> rfl
  · unfold generate_risk_analysis
    cases current_phase_data_get pctx <;> rfl
  · unfold generate_stakeholder_info
    cases current_phase_data_get pctx <;> rfl

/-- Claim C4 (code-bug evaluation): when the Interaction Recorder write throws,
the exception propagates out of `process_chat_query` and the already-generated
response is lost, contradicting the claim that such a failure is caught and the
response still returned. -/
theorem c4_recorder_failure_propagates :
    process_chat_query ⟨some raising_store, true⟩ "hello" "project" (some 1) none
      (some []) dbOne = .error "vector store write failed" := by rfl

/-- Counterexample to C5 as stated: a completed dashboard-scope query (with a
fully working vector store and a real AI key) writes zero StoredInteractions,
not exactly one. -/
theorem c5_dashboard_query_stores_nothing :
    (exOk (process_chat_query ⟨some working_store, true⟩ "how many projects are there?"
        "dashboard" none none (some []) db3)).map (fun p => p.2.length) = some 0 := by rfl

theorem record_interaction_log (svc : RAGChatService) (pid ph : Option Nat)
    (q intent : String) (response r : ChatResponse) (log : List StoredInteraction)
    (h : record_interaction svc pid ph q intent response = .ok (r, log)) :
    log.length = (if optNatTruthy pid && svc.use_real_ai then 1 else 0) ∧
    ∀ e ∈ log, e.project_id = pid ∧ e.phase_id = ph ∧ e.query = q := by
  unfold record_interaction at h
  split at h
  · rename_i hcond
    split at h
    · exact Except.noConfusion h
    · split at h
      · exact Except.noConfusion h
      · rw [Except.ok.injEq, Prod.mk.injEq] at h
        obtain ⟨hr, hl⟩ := h
        subst hl
        refine ⟨by simp [hcond], ?_⟩
        intro e he
        rcases List.mem_singleton.mp he with rfl
        exact ⟨rfl, rfl, rfl⟩
  · rename_i hcond
    rw [Except.ok.injEq, Prod.mk.injEq] at h
    obtain ⟨hr, hl⟩ := h
    subst hl
    refine ⟨by simp [hcond], ?_⟩
    intro e he
    exact absurd he (List.not_mem_nil e)

/-- Claim C5 (amended): a completed query writes exactly one StoredInteraction -
scoped to the same project id and phase id the query was handled under - when a
truthy project id was supplied and the service has a real AI key; otherwise
(dashboard scope with no project id, project id 0, or no API key) it writes
nothing. -/
theorem c5_amended_store_count (svc : RAGChatService) (q ct : String)
    (pid ph : Option Nat) (hist : Option (List ConvTurn)) (db : Db)
    (r : ChatResponse) (log : List StoredInteraction)
    (h : process_chat_query svc q ct pid ph hist db = .ok (r, log)) :
    log.length = (if optNatTruthy pid && svc.use_real_ai then 1 else 0) ∧
    ∀ e ∈ log, e.project_id = pid ∧ e.phase_id = ph ∧ e.query = q := by
  unfold process_chat_query at h
  split at h
  · exact Except.noConfusion h
  · exact record_interaction_log _ _ _ _ _ _ _ _ h

/-- The dashboard fallback response served for the witness query below. -/
def c5w_resp : ChatResponse :=
  { response := dashboard_general_text, confidence_score := 70,
    sources := ["General AI"], context_type := "dashboard" }

/-- Witness for the amended C5: a dashboard query with no project id on a service
with a real AI key completes and records nothing. -/
theorem c5_amended_witness :
    ([] : List StoredInteraction).length
        = (if optNatTruthy none && (RAGChatService.mk none true).use_real_ai then 1 else 0) ∧
    ∀ e ∈ ([] : List StoredInteraction),
      e.project_id = (none : Option Nat) ∧ e.phase_id = (none : Option Nat) ∧ e.query = "hi" :=
  c5_amended_store_count ⟨none, true⟩ "hi" "dashboard" none none (some []) dbEmpty
    c5w_resp [] rfl

/-- Claim C9: dashboard scope, query "how many projects are there?", empty
history, three stored projects (two active, one completed, none pending
approval): the pipeline classifies the intent as project_list and answers with
a response containing "3 total projects", confidence 95 and sources
["SQL Database"]. -/
theorem c9_three_projects_scenario :
    detect_query_intent "how many projects are there?" "dashboard" [] = "project_list" ∧
    (exOk (process_chat_query ⟨none, false⟩ "how many projects are there?" "dashboard"
        none none (some []) db3)).map
      (fun p => (strContains p.1.response "3 total projects", p.1.confidence_score, p.1.sources))
      = some (true, 95, ["SQL Database"]) :=
  ⟨rfl, rfl⟩

/-! ## Claim C8: snippet cap and budget -/

/-- Modelled from the spec: `EnhancedVectorStoreService` (imported at
rag_chat_service.py line 9) is code of this repository that is not under src/.
Per the spec, semantic retrieval returns "up to 5 nearest results ranked by
similarity to the query text": an index partition is kept as a
similarity-ranked snippet list, most relevant first, and a search returns at
most `limit` of them. -/
def search_index (ranked : List String) (limit : Nat) : List String :=
  ranked.take limit

/-- Modelled from the spec: a vector-store handle backed by `search_index`, the
dashboard partition and the per-(project, phase) partitions being supplied as
ranked snippet lists. -/
def enhanced_vector_store (dashboard_index : List String)
    (project_index : Option Nat → Option Nat → List String) : VectorStore :=
  { search_dashboard_context := fun _q limit =>
      .ok ((search_index dashboard_index limit).map SearchHit.mk)
    search_project_context := fun pid _q ph limit =>
      .ok ((search_index (project_index pid ph) limit).map SearchHit.mk)
    store_chat_embedding := fun _ => .ok () }

theorem pySlice_idem (s : String) (n : Nat) : pySlice (pySlice s n) n = pySlice s n := by
  unfold pySlice
  simp [List.take_take]

theorem requirement_snippet_lines_map (i : Nat) (l : List String) :
    requirement_snippet_lines i (l.map (fun s => pySlice s 200)) =
      requirement_snippet_lines i l := by
  induction l generalizing i with
  | nil => rfl
  | cons a as ih =>
    simp only [List.map_cons, requirement_snippet_lines, pySlice_idem, ih]

/-- Claim C8: the semantic-snippet sequence assembled for a project query holds
at most 5 snippets, and the snippet interpolation consumes the list only up to a
fixed budget - the first 3 snippets, each cut to its first 200 characters - so
the generated response is unchanged when the snippet list is truncated to that
budget, every snippet beyond it being silently dropped in similarity order. -/
theorem c8_snippet_cap_and_budget (dashboard_index : List String)
    (project_index : Option Nat → Option Nat → List String)
    (pid ph : Option Nat) (q : String) (pctx : ProjectSqlContext) (vc : List String) :
    (project_vector_context ⟨some (enhanced_vector_store dashboard_index project_index), true⟩
        pid q ph).length ≤ 5 ∧
    generate_requirement_info pctx vc q =
      generate_requirement_info pctx ((vc.take 3).map (fun s => pySlice s 200)) q := by
  constructor
  · unfold project_vector_context enhanced_vector_store search_index
    simp only [List.length_map, List.length_take]
    exact Nat.min_le_left _ _
  · have htake : ((vc.take 3).map (fun s => pySlice s 200)).take 3
        = (vc.take 3).map (fun s => pySlice s 200) := by
      rw [List.map_take, List.take_take, Nat.min_self]
    have hempty : ((vc.take 3).map (fun s => pySlice s 200)).isEmpty = vc.isEmpty := by
      cases vc <;> rfl
    unfold generate_requirement_info
    rw [htake, hempty, requirement_snippet_lines_map]

end SDLC
